import Mathlib

/-!
Shallow embedding of the domain schema layer of `src/app/models.py`
(SQLModel entity and DTO declarations for the report-research application).

Each Python model class becomes a Lean structure; each declared field
constraint (max_length, min_length, ge/le range, regex pattern, enum
membership, max_digits) becomes a check in an explicit validating
constructor `mk<Model>` returning `Except FieldError <Model>`.
Omitted-versus-provided fields are modelled by `Option` arguments, with
the declared default substituted when the argument is `none`.
`datetime` values are modelled as abstract `Nat` timestamps; the
`default_factory=datetime.utcnow` defaults become an explicit `now`
parameter.  `Decimal` columns with `decimal_places`/`max_digits` are
modelled as exact scaled integers.
-/

namespace AwuIbis

/-! ### A small regex engine (Brzozowski derivatives)

Used to embed the declared email pattern
`^[a-zA-Z0-9_.+-]+@[a-zA-Z0-9-]+\.[a-zA-Z0-9-.]+$` of `User.email`
(src/app/models.py line 32).  The `^...$` anchors correspond to whole
string matching. -/

inductive Regex where
  | zero
  | eps
  | cls (p : Char → Bool)
  | cat (r s : Regex)
  | alt (r s : Regex)
  | star (r : Regex)

def Regex.nullable : Regex → Bool
  | .zero => false
  | .eps => true
  | .cls _ => false
  | .cat r s => r.nullable && s.nullable
  | .alt r s => r.nullable || s.nullable
  | .star _ => true

def Regex.deriv : Regex → Char → Regex
  | .zero, _ => .zero
  | .eps, _ => .zero
  | .cls p, c => if p c then .eps else .zero
  | .cat r s, c =>
      if r.nullable then .alt (.cat (r.deriv c) s) (s.deriv c) else .cat (r.deriv c) s
  | .alt r s, c => .alt (r.deriv c) (s.deriv c)
  | .star r, c => .cat (r.deriv c) (.star r)

def Regex.matchList : Regex → List Char → Bool
  | r, [] => r.nullable
  | r, c :: cs => (r.deriv c).matchList cs

/-- Whole-string matching (the Python pattern is anchored with `^` and `$`). -/
def Regex.matchStr (r : Regex) (s : String) : Bool := r.matchList s.data

/-- `X+` (one or more). -/
def Regex.plus (r : Regex) : Regex := .cat r (.star r)

/-- The character class `[a-zA-Z0-9_.+-]` of the local part. -/
def localChar (c : Char) : Bool :=
  c.isAlpha || c.isDigit || c = '_' || c = '.' || c = '+' || c = '-'

/-- The character class `[a-zA-Z0-9-]` of the domain label. -/
def domainChar (c : Char) : Bool :=
  c.isAlpha || c.isDigit || c = '-'

/-- The character class `[a-zA-Z0-9-.]` of the domain tail. -/
def domainTailChar (c : Char) : Bool :=
  c.isAlpha || c.isDigit || c = '-' || c = '.'

/-- The declared `User.email` pattern
`^[a-zA-Z0-9_.+-]+@[a-zA-Z0-9-]+\.[a-zA-Z0-9-.]+$` (models.py line 32). -/
def emailRegex : Regex :=
  .cat (Regex.plus (.cls localChar))
    (.cat (.cls fun c => c = '@')
      (.cat (Regex.plus (.cls domainChar))
        (.cat (.cls fun c => c = '.') (Regex.plus (.cls domainTailChar)))))

/-! ### Enums (models.py lines 9-23) -/

inductive ReportType where
  | INDUSTRY
  | COMPANY
deriving DecidableEq, Repr

/-- Parse an inbound raw string into `ReportType`; the enum is a closed
set, so anything outside its declared values is rejected (`none`). -/
def ReportType.fromString : String → Option ReportType := fun s =>
  if s = "industry" then some .INDUSTRY
  else if s = "company" then some .COMPANY
  else none

inductive UserRole where
  | ADMIN
  | OFFICIAL
  | VIEWER
deriving DecidableEq, Repr

def UserRole.fromString : String → Option UserRole := fun s =>
  if s = "admin" then some .ADMIN
  else if s = "official" then some .OFFICIAL
  else if s = "viewer" then some .VIEWER
  else none

inductive InteractionType where
  | QUESTION
  | SUMMARY
  | ANALYSIS
deriving DecidableEq, Repr

def InteractionType.fromString : String → Option InteractionType := fun s =>
  if s = "question" then some .QUESTION
  else if s = "summary" then some .SUMMARY
  else if s = "analysis" then some .ANALYSIS
  else none

/-! ### Field-validation errors (spec section 7, taxonomy item (a)) -/

inductive FieldError where
  | maxLength (field : String)
  | minLength (field : String)
  | outOfRange (field : String)
  | patternMismatch (field : String)
  | enumMismatch (field : String)
  | maxDigits (field : String)
deriving DecidableEq, Repr

instance {ε α : Type} [DecidableEq ε] [DecidableEq α] : DecidableEq (Except ε α) := fun x y =>
  match x, y with
  | .ok a, .ok b =>
      if h : a = b then .isTrue (by rw [h])
      else .isFalse (by intro he; cases he; exact h rfl)
  | .error a, .error b =>
      if h : a = b then .isTrue (by rw [h])
      else .isFalse (by intro he; cases he; exact h rfl)
  | .ok _, .error _ => .isFalse (by intro h; cases h)
  | .error _, .ok _ => .isFalse (by intro h; cases h)

/-! ### Fixed-point decimals

`Decimal` columns declared with `decimal_places=s, max_digits=m` hold the
exact value `units / 10 ^ s` with at most `m` significant digits; the
significand is an exact integer, never a binary float. -/

structure FixedDec (scale : Nat) where
  units : Int
deriving DecidableEq, Repr

/-- `max_digits` bound violated (counting all digits of the significand). -/
def decimalTooBig {s : Nat} (md : Nat) : Option (FixedDec s) → Bool
  | none => false
  | some d => 10 ^ md ≤ d.units.natAbs

/-- An optional string exceeds a declared `max_length`. -/
def optLenGt (n : Nat) : Option String → Bool
  | none => false
  | some s => n < s.length

/-! ### User (models.py lines 27-42) -/

structure User where
  id : Option Nat
  username : String
  email : String
  full_name : String
  role : UserRole
  is_active : Bool
  password_hash : String
  created_at : Nat
  last_login : Option Nat
deriving DecidableEq, Repr

/-- Parse an optional inbound role string, substituting the declared
default `UserRole.OFFICIAL` when omitted. -/
def parseRole (field : String) : Option String → Except FieldError UserRole
  | none => .ok .OFFICIAL
  | some s =>
    match UserRole.fromString s with
    | some r => .ok r
    | none => .error (.enumMismatch field)

/-- Validating constructor for `User`: username max 100, email max 255 and
regex-validated, full_name max 200, role defaults to OFFICIAL, is_active
defaults to true, password_hash max 255, created_at defaults to now,
id and last_login default to none. -/
def mkUser (now : Nat) (username email full_name : String) (role : Option String)
    (is_active : Option Bool) (password_hash : String) : Except FieldError User :=
  if username.length > 100 then .error (.maxLength "User.username")
  else if email.length > 255 then .error (.maxLength "User.email")
  else if emailRegex.matchStr email = false then .error (.patternMismatch "User.email")
  else if full_name.length > 200 then .error (.maxLength "User.full_name")
  else if password_hash.length > 255 then .error (.maxLength "User.password_hash")
  else
    match parseRole "User.role" role with
    | .error e => .error e
    | .ok ur =>
      .ok ⟨none, username, email, full_name, ur, is_active.getD true, password_hash, now, none⟩

/-! ### IBISWorldReport (models.py lines 59-88) -/

structure IBISWorldReport where
  id : Option Nat
  report_id : String
  title : String
  report_type : ReportType
  industry_code : Option String
  company_name : Option String
  description : String
  publication_date : Option Nat
  report_url : Option String
  page_count : Option Int
  report_size_mb : Option (FixedDec 2)
  tags : List String
  is_cached : Bool
  cache_expiry : Option Nat
  last_accessed : Option Nat
  access_count : Int
  created_at : Nat
  updated_at : Nat
deriving DecidableEq, Repr

/-- Validating constructor for `IBISWorldReport`: report_id max 100, title
max 500, report_type parsed from the closed `ReportType` set, optional
string fields bounded (industry_code 50, company_name 300, description
2000 with default "", report_url 1000), report_size_mb at most 10 digits,
tags default [], is_cached default false, access_count default 0. -/
def mkIBISWorldReport (now : Nat) (report_id title : String) (report_type : String)
    (industry_code company_name : Option String) (description : Option String)
    (publication_date : Option Nat) (report_url : Option String) (page_count : Option Int)
    (report_size_mb : Option (FixedDec 2)) (tags : Option (List String))
    (is_cached : Option Bool) (cache_expiry last_accessed : Option Nat)
    (access_count : Option Int) : Except FieldError IBISWorldReport :=
  if report_id.length > 100 then .error (.maxLength "IBISWorldReport.report_id")
  else if title.length > 500 then .error (.maxLength "IBISWorldReport.title")
  else if optLenGt 50 industry_code then .error (.maxLength "IBISWorldReport.industry_code")
  else if optLenGt 300 company_name then .error (.maxLength "IBISWorldReport.company_name")
  else if (description.getD "").length > 2000 then .error (.maxLength "IBISWorldReport.description")
  else if optLenGt 1000 report_url then .error (.maxLength "IBISWorldReport.report_url")
  else if decimalTooBig 10 report_size_mb then .error (.maxDigits "IBISWorldReport.report_size_mb")
  else
    match ReportType.fromString report_type with
    | none => .error (.enumMismatch "IBISWorldReport.report_type")
    | some rt =>
      .ok ⟨none, report_id, title, rt, industry_code, company_name, description.getD "",
        publication_date, report_url, page_count, report_size_mb, tags.getD [],
        is_cached.getD false, cache_expiry, last_accessed, access_count.getD 0, now, now⟩

/-- Overwrite the `report_size_mb` field of an existing record. -/
def storeSizeMb (rep : IBISWorldReport) (d : FixedDec 2) : IBISWorldReport :=
  { rep with report_size_mb := some d }

/-! ### SearchResult (models.py lines 129-140) -/

structure SearchResult where
  id : Option Nat
  search_history_id : Int
  report_id : Int
  relevance_score : Option (FixedDec 4)
  result_rank : Int
deriving DecidableEq, Repr

/-- Validating constructor for `SearchResult`: both foreign keys are plain
integers, relevance_score holds at most 10 digits, result_rank defaults
to 0.  No uniqueness constraint is declared on
(search_history_id, result_rank). -/
def mkSearchResult (search_history_id report_id : Int)
    (relevance_score : Option (FixedDec 4)) (result_rank : Option Int) :
    Except FieldError SearchResult :=
  if decimalTooBig 10 relevance_score then .error (.maxDigits "SearchResult.relevance_score")
  else .ok ⟨none, search_history_id, report_id, relevance_score, result_rank.getD 0⟩

/-- Overwrite the `relevance_score` field of an existing record. -/
def storeScore (sr : SearchResult) (d : FixedDec 4) : SearchResult :=
  { sr with relevance_score := some d }

/-! ### Non-persistent DTOs (models.py lines 171-198, 201-205) -/

structure UserCreate where
  username : String
  email : String
  full_name : String
  password : String
  role : UserRole
deriving DecidableEq, Repr

/-- Validating constructor for `UserCreate`: username max 100, email max
255 (no regex declared here), full_name max 200, password min 8 / max
255, role defaults to OFFICIAL. -/
def mkUserCreate (username email full_name password : String) (role : Option String) :
    Except FieldError UserCreate :=
  if username.length > 100 then .error (.maxLength "UserCreate.username")
  else if email.length > 255 then .error (.maxLength "UserCreate.email")
  else if full_name.length > 200 then .error (.maxLength "UserCreate.full_name")
  else if password.length < 8 then .error (.minLength "UserCreate.password")
  else if password.length > 255 then .error (.maxLength "UserCreate.password")
  else
    match parseRole "UserCreate.role" role with
    | .error e => .error e
    | .ok ur => .ok ⟨username, email, full_name, password, ur⟩

structure UserLogin where
  username : String
  password : String
deriving DecidableEq, Repr

/-- Validating constructor for `UserLogin`: username max 100, password max
255; no minimum length is declared on either field. -/
def mkUserLogin (username password : String) : Except FieldError UserLogin :=
  if username.length > 100 then .error (.maxLength "UserLogin.username")
  else if password.length > 255 then .error (.maxLength "UserLogin.password")
  else .ok ⟨username, password⟩

structure ReportSearch where
  query : String
  report_type : Option ReportType
  industry_codes : List String
  publication_date_from : Option Nat
  publication_date_to : Option Nat
  limit : Int
  offset : Int
deriving DecidableEq, Repr

/-- Validating constructor for `ReportSearch`: query max 500, report_type
defaults to none, industry_codes defaults to [], limit defaults to 20
with declared range ge=1, le=100, offset defaults to 0 with ge=0. -/
def mkReportSearch (query : String) (report_type : Option ReportType)
    (industry_codes : Option (List String))
    (publication_date_from publication_date_to : Option Nat)
    (limit offset : Option Int) : Except FieldError ReportSearch :=
  if query.length > 500 then .error (.maxLength "ReportSearch.query")
  else if limit.getD 20 < 1 then .error (.outOfRange "ReportSearch.limit")
  else if limit.getD 20 > 100 then .error (.outOfRange "ReportSearch.limit")
  else if offset.getD 0 < 0 then .error (.outOfRange "ReportSearch.offset")
  else
    .ok ⟨query, report_type, industry_codes.getD [], publication_date_from,
      publication_date_to, limit.getD 20, offset.getD 0⟩

structure ReportInteractionCreate where
  report_id : Int
  interaction_type : InteractionType
  question : Option String
deriving DecidableEq, Repr

/-- Validating constructor for `ReportInteractionCreate`: interaction_type
parsed from the closed `InteractionType` set, question max 1000. -/
def mkReportInteractionCreate (report_id : Int) (interaction_type : String)
    (question : Option String) : Except FieldError ReportInteractionCreate :=
  if optLenGt 1000 question then .error (.maxLength "ReportInteractionCreate.question")
  else
    match InteractionType.fromString interaction_type with
    | none => .error (.enumMismatch "ReportInteractionCreate.interaction_type")
    | some it => .ok ⟨report_id, it, question⟩

/-! ### Declared string-field constraints, transcribed per field

One entry per `str`-typed field declared in models.py, with its declared
`min_length` and `max_length` (none where the source declares no bound). -/

structure StrFieldSpec where
  model : String
  field : String
  min_len : Option Nat
  max_len : Option Nat
deriving DecidableEq, Repr

def stringFields : List StrFieldSpec := [
  ⟨"User", "username", none, some 100⟩,
  ⟨"User", "email", none, some 255⟩,
  ⟨"User", "full_name", none, some 200⟩,
  ⟨"User", "password_hash", none, some 255⟩,
  ⟨"APICredentials", "service_name", none, some 100⟩,
  ⟨"APICredentials", "api_key", none, some 500⟩,
  ⟨"APICredentials", "api_secret", none, some 500⟩,
  ⟨"APICredentials", "base_url", none, some 500⟩,
  ⟨"IBISWorldReport", "report_id", none, some 100⟩,
  ⟨"IBISWorldReport", "title", none, some 500⟩,
  ⟨"IBISWorldReport", "industry_code", none, some 50⟩,
  ⟨"IBISWorldReport", "company_name", none, some 300⟩,
  ⟨"IBISWorldReport", "description", none, some 2000⟩,
  ⟨"IBISWorldReport", "report_url", none, some 1000⟩,
  ⟨"ReportInteraction", "question", none, some 1000⟩,
  ⟨"ReportInteraction", "response", none, some 10000⟩,
  ⟨"ReportInteraction", "claude_model", none, some 100⟩,
  ⟨"SearchHistory", "search_query", none, some 500⟩,
  ⟨"ReportCache", "cache_key", none, some 255⟩,
  ⟨"ReportCache", "cache_type", none, some 50⟩,
  ⟨"AuditLog", "action", none, some 100⟩,
  ⟨"AuditLog", "resource_type", none, some 100⟩,
  ⟨"AuditLog", "resource_id", none, some 255⟩,
  ⟨"AuditLog", "ip_address", none, some 45⟩,
  ⟨"AuditLog", "user_agent", none, some 500⟩,
  ⟨"UserCreate", "username", none, some 100⟩,
  ⟨"UserCreate", "email", none, some 255⟩,
  ⟨"UserCreate", "full_name", none, some 200⟩,
  ⟨"UserCreate", "password", some 8, some 255⟩,
  ⟨"UserUpdate", "full_name", none, some 200⟩,
  ⟨"UserUpdate", "email", none, some 255⟩,
  ⟨"UserLogin", "username", none, some 100⟩,
  ⟨"UserLogin", "password", none, some 255⟩,
  ⟨"ReportSearch", "query", none, some 500⟩,
  ⟨"ReportInteractionCreate", "question", none, some 1000⟩,
  ⟨"APICredentialsCreate", "service_name", none, some 100⟩,
  ⟨"APICredentialsCreate", "api_key", none, some 500⟩,
  ⟨"APICredentialsCreate", "api_secret", none, some 500⟩,
  ⟨"APICredentialsCreate", "base_url", none, some 500⟩,
  ⟨"APICredentialsUpdate", "api_key", none, some 500⟩,
  ⟨"APICredentialsUpdate", "api_secret", none, some 500⟩,
  ⟨"APICredentialsUpdate", "base_url", none, some 500⟩,
  ⟨"ReportSummary", "report_id", none, none⟩,
  ⟨"ReportSummary", "title", none, none⟩,
  ⟨"ReportSummary", "industry_code", none, none⟩,
  ⟨"ReportSummary", "company_name", none, none⟩,
  ⟨"ReportSummary", "publication_date", none, none⟩,
  ⟨"ReportSummary", "last_accessed", none, none⟩,
  ⟨"InteractionHistory", "user_name", none, none⟩,
  ⟨"InteractionHistory", "report_title", none, none⟩]

/-! ## Theorems -/

/-- C1: every `User` produced by the validating constructor has an email
matching the declared pattern `^[a-zA-Z0-9_.+-]+@[a-zA-Z0-9-]+\.[a-zA-Z0-9-.]+$`,
and constructing with email `"not-an-email"` fails with a
pattern-mismatch field-validation error rather than producing an
instance. -/
theorem claim_C1 :
    (∀ (now : Nat) (un em fn : String) (r : Option String) (a : Option Bool) (ph : String)
        (u : User), mkUser now un em fn r a ph = .ok u →
        emailRegex.matchStr u.email = true) ∧
    (∀ (now : Nat) (un fn : String) (r : Option String) (a : Option Bool) (ph : String),
        un.length ≤ 100 →
        mkUser now un "not-an-email" fn r a ph = .error (.patternMismatch "User.email")) := by
  constructor
  · intro now un em fn r a ph u h
    unfold mkUser at h
    split_ifs at h with h1 h2 h3 h4 h5
    rcases hpr : parseRole "User.role" r with e | ur <;> rw [hpr] at h
    · exact Except.noConfusion h
    · injection h with h'
      subst h'
      simpa using h3
  · intro now un fn r a ph hu
    unfold mkUser
    rw [if_neg (by omega), if_neg (by decide), if_pos (by decide)]

/-- Witness for C1 at concrete inputs: a valid email accepted, the
invalid email rejected. -/
theorem claim_C1_witness :
    emailRegex.matchStr "a@b.c" = true ∧
    mkUser 0 "alice" "not-an-email" "Alice" none none "h" =
      .error (.patternMismatch "User.email") :=
  ⟨claim_C1.1 0 "alice" "a@b.c" "Alice" none none "h"
      ⟨none, "alice", "a@b.c", "Alice", .OFFICIAL, true, "h", 0, none⟩ (by decide),
    claim_C1.2 0 "alice" "Alice" none none "h" (by decide)⟩

/-- C2: every constructed `ReportSearch` has `limit` in [1,100] and
`offset` at least 0; constructing with limit 0 or 101 fails with a
range field-validation error, and any limit in [1,100] with offset at
least 0 succeeds. -/
theorem claim_C2 :
    (∀ q rt codes pf pt lim off rs, mkReportSearch q rt codes pf pt lim off = .ok rs →
        1 ≤ rs.limit ∧ rs.limit ≤ 100 ∧ 0 ≤ rs.offset) ∧
    (∀ q rt codes pf pt off, q.length ≤ 500 →
        mkReportSearch q rt codes pf pt (some 0) off =
          .error (.outOfRange "ReportSearch.limit")) ∧
    (∀ q rt codes pf pt off, q.length ≤ 500 →
        mkReportSearch q rt codes pf pt (some 101) off =
          .error (.outOfRange "ReportSearch.limit")) ∧
    (∀ q rt codes pf pt (lim off : Int), q.length ≤ 500 → 1 ≤ lim → lim ≤ 100 → 0 ≤ off →
        ∃ rs, mkReportSearch q rt codes pf pt (some lim) (some off) = .ok rs ∧
          rs.limit = lim ∧ rs.offset = off) := by
  refine ⟨?_, ?_, ?_, ?_⟩
  · intro q rt codes pf pt lim off rs h
    unfold mkReportSearch at h
    split_ifs at h with h1 h2 h3 h4
    injection h with h'
    subst h'
    refine ⟨by simpa using by omega, by simpa using by omega, by simpa using by omega⟩
  · intro q rt codes pf pt off hq
    unfold mkReportSearch
    rw [if_neg (by omega), if_pos (by decide)]
  · intro q rt codes pf pt off hq
    unfold mkReportSearch
    rw [if_neg (by omega), if_neg (by decide), if_pos (by decide)]
  · intro q rt codes pf pt lim off hq h1 h2 h3
    refine ⟨⟨q, rt, codes.getD [], pf, pt, lim, off⟩, ?_, rfl, rfl⟩
    unfold mkReportSearch
    simp only [Option.getD_some]
    rw [if_neg (by omega), if_neg (by omega), if_neg (by omega), if_neg (by omega)]

/-- Witness for C2 at concrete inputs: limit 0 and 101 rejected, limit 50
with offset 3 accepted. -/
theorem claim_C2_witness :
    mkReportSearch "q" none none none none (some 0) none =
      .error (.outOfRange "ReportSearch.limit") ∧
    mkReportSearch "q" none none none none (some 101) none =
      .error (.outOfRange "ReportSearch.limit") ∧
    (∃ rs, mkReportSearch "q" none none none none (some 50) (some 3) = .ok rs ∧
      rs.limit = 50 ∧ rs.offset = 3) :=
  ⟨claim_C2.2.1 "q" none none none none none (by decide),
   claim_C2.2.2.1 "q" none none none none none (by decide),
   claim_C2.2.2.2 "q" none none none none 50 3 (by decide) (by decide) (by decide) (by decide)⟩

/-- C3: a `UserCreate` whose password has length 7 is rejected with a
minimum-length field-validation error, one whose password has length in
[8,255] is accepted (other fields valid), and among every declared string
field of the schema only `UserCreate.password` carries a minimum length. -/
theorem claim_C3 :
    (∀ un em fn p r, un.length ≤ 100 → em.length ≤ 255 → fn.length ≤ 200 →
        p.length = 7 → mkUserCreate un em fn p r = .error (.minLength "UserCreate.password")) ∧
    (∀ un em fn p, un.length ≤ 100 → em.length ≤ 255 → fn.length ≤ 200 →
        8 ≤ p.length → p.length ≤ 255 →
        ∃ uc, mkUserCreate un em fn p none = .ok uc ∧ uc.password = p) ∧
    (∀ f ∈ stringFields, f.min_len ≠ none →
        f.model = "UserCreate" ∧ f.field = "password") := by
  refine ⟨?_, ?_, by decide⟩
  · intro un em fn p r h1 h2 h3 h4
    unfold mkUserCreate
    rw [if_neg (by omega), if_neg (by omega), if_neg (by omega), if_pos (by omega)]
  · intro un em fn p h1 h2 h3 h4 h5
    refine ⟨⟨un, em, fn, p, .OFFICIAL⟩, ?_, rfl⟩
    unfold mkUserCreate
    rw [if_neg (by omega), if_neg (by omega), if_neg (by omega), if_neg (by omega),
      if_neg (by omega)]
    rfl

/-- Witness for C3 at concrete inputs: a 7-character password rejected,
an 8-character one accepted, and the one minimum-bearing table entry is
`UserCreate.password`. -/
theorem claim_C3_witness :
    mkUserCreate "u" "e" "f" "1234567" none = .error (.minLength "UserCreate.password") ∧
    (∃ uc, mkUserCreate "u" "e" "f" "12345678" none = .ok uc ∧ uc.password = "12345678") ∧
    ((⟨"UserCreate", "password", some 8, some 255⟩ : StrFieldSpec).model = "UserCreate" ∧
      (⟨"UserCreate", "password", some 8, some 255⟩ : StrFieldSpec).field = "password") :=
  ⟨claim_C3.1 "u" "e" "f" "1234567" none (by decide) (by decide) (by decide) (by decide),
   claim_C3.2.1 "u" "e" "f" "12345678" (by decide) (by decide) (by decide) (by decide) (by decide),
   claim_C3.2.2 ⟨"UserCreate", "password", some 8, some 255⟩ (by decide) (by decide)⟩

/-- C4: the three enums are closed sets — parsing succeeds only on the
declared member strings — and an `IBISWorldReport` constructed with
report_type "invalid" is rejected with an enum field-validation error
while "industry" is accepted, never silently coerced. -/
theorem claim_C4 :
    (∀ s t, ReportType.fromString s = some t → s = "industry" ∨ s = "company") ∧
    (∀ s t, UserRole.fromString s = some t →
        s = "admin" ∨ s = "official" ∨ s = "viewer") ∧
    (∀ s t, InteractionType.fromString s = some t →
        s = "question" ∨ s = "summary" ∨ s = "analysis") ∧
    (∀ now rid title ic cn d pd ru pc sz tg ca ce la ac,
        rid.length ≤ 100 → title.length ≤ 500 → optLenGt 50 ic = false →
        optLenGt 300 cn = false → (d.getD "").length ≤ 2000 → optLenGt 1000 ru = false →
        decimalTooBig 10 sz = false →
        mkIBISWorldReport now rid title "invalid" ic cn d pd ru pc sz tg ca ce la ac =
          .error (.enumMismatch "IBISWorldReport.report_type")) ∧
    (∀ now rid title ic cn d pd ru pc sz tg ca ce la ac,
        rid.length ≤ 100 → title.length ≤ 500 → optLenGt 50 ic = false →
        optLenGt 300 cn = false → (d.getD "").length ≤ 2000 → optLenGt 1000 ru = false →
        decimalTooBig 10 sz = false →
        ∃ rep, mkIBISWorldReport now rid title "industry" ic cn d pd ru pc sz tg ca ce la ac =
          .ok rep ∧ rep.report_type = .INDUSTRY) := by
  refine ⟨?_, ?_, ?_, ?_, ?_⟩
  · intro s t h
    unfold ReportType.fromString at h
    split_ifs at h with h1 h2
    · exact Or.inl h1
    · exact Or.inr h2
  · intro s t h
    unfold UserRole.fromString at h
    split_ifs at h with h1 h2 h3
    · exact Or.inl h1
    · exact Or.inr (Or.inl h2)
    · exact Or.inr (Or.inr h3)
  · intro s t h
    unfold InteractionType.fromString at h
    split_ifs at h with h1 h2 h3
    · exact Or.inl h1
    · exact Or.inr (Or.inl h2)
    · exact Or.inr (Or.inr h3)
  · intro now rid title ic cn d pd ru pc sz tg ca ce la ac hr ht hic hcn hd hru hsz
    unfold mkIBISWorldReport
    rw [if_neg (by omega), if_neg (by omega), if_neg (by simp [hic]), if_neg (by simp [hcn]),
      if_neg (by omega), if_neg (by simp [hru]), if_neg (by simp [hsz])]
    rfl
  · intro now rid title ic cn d pd ru pc sz tg ca ce la ac hr ht hic hcn hd hru hsz
    refine ⟨⟨none, rid, title, .INDUSTRY, ic, cn, d.getD "", pd, ru, pc, sz, tg.getD [],
      ca.getD false, ce, la, ac.getD 0, now, now⟩, ?_, rfl⟩
    unfold mkIBISWorldReport
    rw [if_neg (by omega), if_neg (by omega), if_neg (by simp [hic]), if_neg (by simp [hcn]),
      if_neg (by omega), if_neg (by simp [hru]), if_neg (by simp [hsz])]
    rfl

/-- Witness for C4 at concrete inputs: "industry" parses into the enum,
the "invalid" construction is rejected, the "industry" construction
accepted. -/
theorem claim_C4_witness :
    ("industry" = "industry" ∨ "industry" = "company") ∧
    mkIBISWorldReport 0 "r1" "T" "invalid" none none none none none none none none none
        none none none = .error (.enumMismatch "IBISWorldReport.report_type") ∧
    (∃ rep, mkIBISWorldReport 0 "r1" "T" "industry" none none none none none none none
        none none none none none = .ok rep ∧ rep.report_type = .INDUSTRY) :=
  ⟨claim_C4.1 "industry" .INDUSTRY (by decide),
   claim_C4.2.2.2.1 0 "r1" "T" none none none none none none none none none none none none
     (by decide) (by decide) (by decide) (by decide) (by decide) (by decide) (by decide),
   claim_C4.2.2.2.2 0 "r1" "T" none none none none none none none none none none none none
     (by decide) (by decide) (by decide) (by decide) (by decide) (by decide) (by decide)⟩

/-- C5: the fixed-point decimal fields are exact — writing a
`relevance_score` or `report_size_mb` and reading it back returns exactly
the written value, with no drift under arbitrarily repeated writes; in
particular the exact decimal 0.1234 (significand 1234 at scale 4) survives
a construct-and-read round trip unchanged. -/
theorem claim_C5 :
    (∀ sr d, (storeScore sr d).relevance_score = some d) ∧
    (∀ rep d, (storeSizeMb rep d).report_size_mb = some d) ∧
    (∀ sr d n, ((fun s => storeScore s d)^[n + 1] sr).relevance_score = some d) ∧
    mkSearchResult 1 2 (some ⟨1234⟩) none = .ok ⟨none, 1, 2, some ⟨1234⟩, 0⟩ := by
  refine ⟨fun sr d => rfl, fun rep d => rfl, ?_, by decide⟩
  intro sr d n
  rw [Function.iterate_succ_apply']
  rfl

/-- C6: declared defaults are applied exactly when the field is omitted
at construction time: an omitted role is OFFICIAL and omitted is_active
is true on `User`, omitted is_cached is false and omitted access_count is
0 on `IBISWorldReport`; a supplied value is kept verbatim, so a default
never overrides a constructed instance retroactively. -/
theorem claim_C6 :
    (∀ now un em fn ph u, mkUser now un em fn none none ph = .ok u →
        u.role = .OFFICIAL ∧ u.is_active = true) ∧
    (∀ now un em fn ph b u, mkUser now un em fn (some "admin") (some b) ph = .ok u →
        u.role = .ADMIN ∧ u.is_active = b) ∧
    (∀ now rid title rt ic cn d pd ru pc sz tg ce la rep,
        mkIBISWorldReport now rid title rt ic cn d pd ru pc sz tg none ce la none = .ok rep →
        rep.is_cached = false ∧ rep.access_count = 0) ∧
    (∀ now rid title rt ic cn d pd ru pc sz tg ce la b k rep,
        mkIBISWorldReport now rid title rt ic cn d pd ru pc sz tg (some b) ce la (some k) =
          .ok rep → rep.is_cached = b ∧ rep.access_count = k) := by
  refine ⟨?_, ?_, ?_, ?_⟩
  · intro now un em fn ph u h
    unfold mkUser at h
    split_ifs at h
    injection h with h'
    subst h'
    exact ⟨rfl, rfl⟩
  · intro now un em fn ph b u h
    unfold mkUser at h
    split_ifs at h
    injection h with h'
    subst h'
    exact ⟨rfl, rfl⟩
  · intro now rid title rt ic cn d pd ru pc sz tg ce la rep h
    unfold mkIBISWorldReport at h
    split_ifs at h
    rcases hrt : ReportType.fromString rt with _ | t <;> rw [hrt] at h
    · exact Except.noConfusion h
    · injection h with h'
      subst h'
      exact ⟨rfl, rfl⟩
  · intro now rid title rt ic cn d pd ru pc sz tg ce la b k rep h
    unfold mkIBISWorldReport at h
    split_ifs at h
    rcases hrt : ReportType.fromString rt with _ | t <;> rw [hrt] at h
    · exact Except.noConfusion h
    · injection h with h'
      subst h'
      exact ⟨rfl, rfl⟩

/-- Witness for C6 at concrete inputs: omitted fields take the declared
defaults, supplied values are kept. -/
theorem claim_C6_witness :
    ((UserRole.OFFICIAL = UserRole.OFFICIAL ∧ true = true) ∧
      (UserRole.ADMIN = UserRole.ADMIN ∧ false = false)) ∧
    ((false = false ∧ (0 : Int) = 0) ∧ (true = true ∧ (5 : Int) = 5)) :=
  ⟨⟨claim_C6.1 0 "alice" "a@b.c" "Alice" "h"
      ⟨none, "alice", "a@b.c", "Alice", .OFFICIAL, true, "h", 0, none⟩ (by decide),
    claim_C6.2.1 0 "alice" "a@b.c" "Alice" "h" false
      ⟨none, "alice", "a@b.c", "Alice", .ADMIN, false, "h", 0, none⟩ (by decide)⟩,
   ⟨claim_C6.2.2.1 0 "r1" "T" "industry" none none none none none none none none none none
      ⟨none, "r1", "T", .INDUSTRY, none, none, "", none, none, none, none, [],
        false, none, none, 0, 0, 0⟩ (by decide),
    claim_C6.2.2.2 0 "r1" "T" "industry" none none none none none none none none none none true 5
      ⟨none, "r1", "T", .INDUSTRY, none, none, "", none, none, none, none, [],
        true, none, none, 5, 0, 0⟩ (by decide)⟩⟩

/-- C7: the `SearchResult` schema enforces no uniqueness on the pair
(search_history_id, result_rank): two constructions sharing that pair
both succeed, with no uniqueness-violation outcome arising from the
per-instance validation. -/
theorem claim_C7 :
    ∀ (shid rank rid rid' : Int) (sc1 sc2 : Option (FixedDec 4)),
      decimalTooBig 10 sc1 = false → decimalTooBig 10 sc2 = false →
      ∃ s1 s2, mkSearchResult shid rid sc1 (some rank) = .ok s1 ∧
        mkSearchResult shid rid' sc2 (some rank) = .ok s2 ∧
        s1.search_history_id = s2.search_history_id ∧ s1.result_rank = s2.result_rank := by
  intro shid rank rid rid' sc1 sc2 hs1 hs2
  refine ⟨⟨none, shid, rid, sc1, rank⟩, ⟨none, shid, rid', sc2, rank⟩, ?_, ?_, rfl, rfl⟩
  · unfold mkSearchResult
    rw [if_neg (by simp [hs1])]
    rfl
  · unfold mkSearchResult
    rw [if_neg (by simp [hs2])]
    rfl

/-- Witness for C7 at concrete inputs: two results for search 1 at rank 1
both constructed successfully. -/
theorem claim_C7_witness :
    ∃ s1 s2, mkSearchResult 1 2 (some ⟨1234⟩) (some 1) = .ok s1 ∧
      mkSearchResult 1 3 (some ⟨777⟩) (some 1) = .ok s2 ∧
      s1.search_history_id = s2.search_history_id ∧ s1.result_rank = s2.result_rank :=
  claim_C7 1 1 2 3 (some ⟨1234⟩) (some ⟨777⟩) (by decide) (by decide)

/-- C8: the tags list round-trips through construction unchanged — for
every supplied list of strings the constructed `IBISWorldReport` stores
exactly that list, element for element and in order. -/
theorem claim_C8 :
    ∀ (now : Nat) (rid title : String) (tags : List String),
      rid.length ≤ 100 → title.length ≤ 500 →
      ∃ rep, mkIBISWorldReport now rid title "industry" none none none none none none none
        (some tags) none none none none = .ok rep ∧ rep.tags = tags := by
  intro now rid title tags hr ht
  refine ⟨⟨none, rid, title, .INDUSTRY, none, none, "", none, none, none, none, tags,
    false, none, none, 0, now, now⟩, ?_, rfl⟩
  unfold mkIBISWorldReport
  rw [if_neg (by omega), if_neg (by omega), if_neg (by decide), if_neg (by decide),
    if_neg (by decide), if_neg (by decide), if_neg (by decide)]
  rfl

/-- Witness for C8 at the spec's concrete input: tags
["retail", "2024"] are stored back verbatim. -/
theorem claim_C8_witness :
    ∃ rep, mkIBISWorldReport 0 "r1" "T" "industry" none none none none none none none
      (some ["retail", "2024"]) none none none none = .ok rep ∧
      rep.tags = ["retail", "2024"] :=
  claim_C8 0 "r1" "T" ["retail", "2024"] (by decide) (by decide)

/-- C9: a `ReportSearch` constructed with every optional argument omitted
takes the declared defaults limit 20, offset 0, report_type none and
industry_codes []. -/
theorem claim_C9 :
    ∀ q : String, q.length ≤ 500 →
      mkReportSearch q none none none none none none =
        .ok ⟨q, none, [], none, none, 20, 0⟩ := by
  intro q hq
  unfold mkReportSearch
  rw [if_neg (by omega), if_neg (by decide), if_neg (by decide), if_neg (by decide)]
  rfl

/-- Witness for C9 at a concrete query string. -/
theorem claim_C9_witness :
    mkReportSearch "retail trends" none none none none none none =
      .ok ⟨"retail trends", none, [], none, none, 20, 0⟩ :=
  claim_C9 "retail trends" (by decide)

/-- C10: `UserLogin.password` carries no minimum length — every password
of length at most 255, the empty string included, is accepted alongside a
valid username — whereas `UserCreate` rejects an empty password for
falling short of its 8-character minimum. -/
theorem claim_C10 :
    (∀ un p, un.length ≤ 100 → p.length ≤ 255 → mkUserLogin un p = .ok ⟨un, p⟩) ∧
    (∀ un em fn r, un.length ≤ 100 → em.length ≤ 255 → fn.length ≤ 200 →
        mkUserCreate un em fn "" r = .error (.minLength "UserCreate.password")) := by
  constructor
  · intro un p h1 h2
    unfold mkUserLogin
    rw [if_neg (by omega), if_neg (by omega)]
  · intro un em fn r h1 h2 h3
    unfold mkUserCreate
    rw [if_neg (by omega), if_neg (by omega), if_neg (by omega), if_pos (by decide)]

/-- Witness for C10 at concrete inputs: the empty password accepted at
login, rejected at account creation. -/
theorem claim_C10_witness :
    mkUserLogin "alice" "" = .ok ⟨"alice", ""⟩ ∧
    mkUserCreate "alice" "a@b.c" "Alice" "" none =
      .error (.minLength "UserCreate.password") :=
  ⟨claim_C10.1 "alice" "" (by decide) (by decide),
   claim_C10.2 "alice" "a@b.c" "Alice" none (by decide) (by decide) (by decide)⟩

end AwuIbis
